import Mathlib

/-!
Shallow embedding of the storage-subnet API node and its protocol messages
(`src/storage/protocol.py`, `src/neurons/api.py`), together with models of the
collaborator functions those files import from modules that are not part of
the available sources (content addressing, encryption gateway, placement
coordinator, payload database).  Bytes are `Nat` values `< 256`; byte strings
are `List Nat`.
-/

/-! Base64 codec, modelling Python's `base64.b64encode` / `base64.b64decode`
with the standard alphabet on well-formed inputs. -/

/-- Standard base64 alphabet: sextet value to character. -/
def encChar (n : Nat) : Char :=
  if n < 26 then Char.ofNat (65 + n)
  else if n < 52 then Char.ofNat (97 + (n - 26))
  else if n < 62 then Char.ofNat (48 + (n - 52))
  else if n = 62 then Char.ofNat 43
  else Char.ofNat 47

/-- Standard base64 alphabet: character to sextet value (0 on foreign input). -/
def decChar (c : Char) : Nat :=
  if 65 ≤ c.toNat ∧ c.toNat ≤ 90 then c.toNat - 65
  else if 97 ≤ c.toNat ∧ c.toNat ≤ 122 then c.toNat - 97 + 26
  else if 48 ≤ c.toNat ∧ c.toNat ≤ 57 then c.toNat - 48 + 52
  else if c.toNat = 43 then 62
  else if c.toNat = 47 then 63
  else 0

/-- Base64-encode a byte string: 3 bytes become 4 characters, with `=` padding
for a 1- or 2-byte tail. -/
def b64encodeBytes : List Nat → List Char
  | a :: b :: c :: rest =>
      encChar (a / 4) :: encChar (a % 4 * 16 + b / 16) ::
      encChar (b % 16 * 4 + c / 64) :: encChar (c % 64) :: b64encodeBytes rest
  | [a, b] => [encChar (a / 4), encChar (a % 4 * 16 + b / 16), encChar (b % 16 * 4), '=']
  | [a] => [encChar (a / 4), encChar (a % 4 * 16), '=', '=']
  | [] => []

/-- Base64-decode a character string: 4 characters become 3 bytes, a padded
final quartet becomes 1 or 2 bytes. -/
def b64decodeChars : List Char → List Nat
  | c0 :: c1 :: c2 :: c3 :: rest =>
      if c2 = '=' then
        [decChar c0 * 4 + decChar c1 / 16]
      else if c3 = '=' then
        [decChar c0 * 4 + decChar c1 / 16,
         decChar c1 % 16 * 16 + decChar c2 / 4]
      else
        (decChar c0 * 4 + decChar c1 / 16) ::
        (decChar c1 % 16 * 16 + decChar c2 / 4) ::
        (decChar c2 % 4 * 64 + decChar c3) :: b64decodeChars rest
  | _ => []

def b64encode (bs : List Nat) : String := String.mk (b64encodeBytes bs)

def b64decode (s : String) : List Nat := b64decodeChars s.data

theorem decChar_lt (c : Char) : decChar c < 64 := by
  unfold decChar
  split_ifs <;> omega

theorem decChar_encChar (n : Nat) (h : n < 64) : decChar (encChar n) = n := by
  have hf : ∀ i : Fin 64, decChar (encChar i.val) = i.val := by decide
  exact hf ⟨n, h⟩

theorem encChar_ne_pad (n : Nat) (h : n < 64) : encChar n ≠ '=' := by
  have hf : ∀ i : Fin 64, encChar i.val ≠ '=' := by decide
  exact hf ⟨n, h⟩

theorem b64decodeChars_pad1 (c0 c1 c2 c3 : Char) (rest : List Char) (h2 : c2 = '=') :
    b64decodeChars (c0 :: c1 :: c2 :: c3 :: rest) = [decChar c0 * 4 + decChar c1 / 16] := by
  simp only [b64decodeChars]
  rw [if_pos h2]

theorem b64decodeChars_pad2 (c0 c1 c2 c3 : Char) (rest : List Char)
    (h2 : c2 ≠ '=') (h3 : c3 = '=') :
    b64decodeChars (c0 :: c1 :: c2 :: c3 :: rest) =
      [decChar c0 * 4 + decChar c1 / 16, decChar c1 % 16 * 16 + decChar c2 / 4] := by
  simp only [b64decodeChars]
  rw [if_neg h2, if_pos h3]

theorem b64decodeChars_quad (c0 c1 c2 c3 : Char) (rest : List Char)
    (h2 : c2 ≠ '=') (h3 : c3 ≠ '=') :
    b64decodeChars (c0 :: c1 :: c2 :: c3 :: rest) =
      (decChar c0 * 4 + decChar c1 / 16) ::
      (decChar c1 % 16 * 16 + decChar c2 / 4) ::
      (decChar c2 % 4 * 64 + decChar c3) :: b64decodeChars rest := by
  simp only [b64decodeChars]
  rw [if_neg h2, if_neg h3]

theorem b64decodeChars_lt : ∀ (cs : List Char) (b : Nat), b ∈ b64decodeChars cs → b < 256
  | c0 :: c1 :: c2 :: c3 :: rest, b, hb => by
    have h0 := decChar_lt c0
    have h1 := decChar_lt c1
    have h2 := decChar_lt c2
    have h3 := decChar_lt c3
    by_cases hp2 : c2 = '='
    · rw [b64decodeChars_pad1 c0 c1 c2 c3 rest hp2] at hb
      simp only [List.mem_singleton] at hb
      omega
    · by_cases hp3 : c3 = '='
      · rw [b64decodeChars_pad2 c0 c1 c2 c3 rest hp2 hp3] at hb
        simp only [List.mem_cons, List.not_mem_nil, or_false] at hb
        rcases hb with hb | hb <;> omega
      · rw [b64decodeChars_quad c0 c1 c2 c3 rest hp2 hp3] at hb
        simp only [List.mem_cons] at hb
        rcases hb with hb | hb | hb | hb
        · omega
        · omega
        · omega
        · exact b64decodeChars_lt rest b hb
  | [], b, hb => by rw [show b64decodeChars [] = [] from rfl] at hb; cases hb
  | [c0], b, hb => by rw [show b64decodeChars [c0] = [] from rfl] at hb; cases hb
  | [c0, c1], b, hb => by rw [show b64decodeChars [c0, c1] = [] from rfl] at hb; cases hb
  | [c0, c1, c2], b, hb => by
    rw [show b64decodeChars [c0, c1, c2] = [] from rfl] at hb; cases hb

theorem b64decodeChars_encodeBytes (bs : List Nat) :
    (∀ b ∈ bs, b < 256) → b64decodeChars (b64encodeBytes bs) = bs := by
  induction bs using b64encodeBytes.induct with
  | case1 a b c rest ih =>
    intro hb
    have ha : a < 256 := hb a (by simp)
    have hbb : b < 256 := hb b (by simp)
    have hc : c < 256 := hb c (by simp)
    simp only [b64encodeBytes]
    rw [b64decodeChars_quad _ _ _ _ _ (encChar_ne_pad _ (by omega))
        (encChar_ne_pad _ (by omega))]
    rw [decChar_encChar _ (by omega), decChar_encChar _ (by omega),
        decChar_encChar _ (by omega), decChar_encChar _ (by omega)]
    rw [ih (fun x hx => hb x (by simp [hx]))]
    refine congrArg₂ _ (by omega) (congrArg₂ _ (by omega) (congrArg₂ _ (by omega) rfl))
  | case2 a b =>
    intro hb
    have ha : a < 256 := hb a (by simp)
    have hbb : b < 256 := hb b (by simp)
    simp only [b64encodeBytes]
    rw [b64decodeChars_pad2 _ _ _ _ _ (encChar_ne_pad _ (by omega)) rfl]
    rw [decChar_encChar _ (by omega), decChar_encChar _ (by omega),
        decChar_encChar _ (by omega)]
    refine congrArg₂ _ (by omega) (congrArg₂ _ (by omega) rfl)
  | case3 a =>
    intro hb
    have ha : a < 256 := hb a (by simp)
    simp only [b64encodeBytes]
    rw [b64decodeChars_pad1 _ _ _ _ _ rfl]
    rw [decChar_encChar _ (by omega), decChar_encChar _ (by omega)]
    refine congrArg₂ _ (by omega) rfl
  | case4 =>
    intro hb
    rfl

theorem b64decode_b64encode (bs : List Nat) (h : ∀ b ∈ bs, b < 256) :
    b64decode (b64encode bs) = bs :=
  b64decodeChars_encodeBytes bs h

theorem b64decode_lt (s : String) : ∀ b ∈ b64decode s, b < 256 :=
  b64decodeChars_lt s.data

/-! Embedding of `src/storage/protocol.py`.

Each `bt.Synapse` subclass becomes a structure holding its declared data
fields (required fields have no default; response-only fields are `Option`
with default `none`, mirroring `typing.Optional[...] = None`).  The
`required_hash_fields = pydantic.Field([...], title=..., description=...,
allow_mutation=False)` class declaration is embedded as a per-class
`PydanticFieldDecl` descriptor recording the declared default list and the
`allow_mutation` flag.  For each class, `fields` lists the declared pydantic
model fields in source order together with whether the field is required
(no default) in the class declaration. -/

/-- A `pydantic.Field(...)` declaration: the declared default value (here, a
list of field names), its title and description, and the mutability flag. -/
structure PydanticFieldDecl where
  value : List String
  title : String
  descr : String
  allow_mutation : Bool

/-- Python `typing.Union[str, int, bytes]` seed values used by the protocol
messages. -/
inductive SeedU where
  | sstr (s : String)
  | sint (n : Int)
  | sbytes (b : List Nat)

/-- Message `Store` (protocol.py lines 28-76): request fields
`encrypted_data`, `curve`, `g`, `h`, `seed`; response fields `randomness`,
`commitment`, `signature`, `commitment_hash`, all `Optional[...] = None`. -/
structure Store where
  encrypted_data : String
  curve : String
  g : String
  h : String
  seed : SeedU
  randomness : Option Int := none
  commitment : Option String := none
  signature : Option (List Nat) := none
  commitment_hash : Option String := none

/-- The `required_hash_fields` pydantic field declared on `Store`. -/
def Store.required_hash_fields : PydanticFieldDecl :=
  { value := ["curve", "g", "h", "seed", "randomness", "commitment", "signature",
              "commitment_hash"]
    title := "Required Hash Fields"
    descr := "A list of required fields for the hash."
    allow_mutation := false }

/-- Declared model fields of `Store` in source order, paired with whether the
field is required (has no default) in the class declaration. -/
def Store.fields : List (String × Bool) :=
  [("encrypted_data", true), ("curve", true), ("g", true), ("h", true),
   ("seed", true), ("randomness", false), ("commitment", false),
   ("signature", false), ("commitment_hash", false),
   ("required_hash_fields", false)]

/-- Constructing a `Store` request supplies exactly the required fields; the
optional response fields take their declared `None` defaults. -/
def Store.mkRequest (encrypted_data curve g h : String) (seed : SeedU) : Store :=
  { encrypted_data := encrypted_data, curve := curve, g := g, h := h, seed := seed }

/-- The `required_hash_fields` pydantic field declared on `StreamStore`
(protocol.py lines 98-112); the class declares the same data fields as
`Store`.  Its streaming-response methods are network transport and are not
embedded. -/
def StreamStore.required_hash_fields : PydanticFieldDecl :=
  { value := ["curve", "g", "h", "seed", "randomness", "commitment", "signature",
              "commitment_hash"]
    title := "Required Hash Fields"
    descr := "A list of required fields for the hash."
    allow_mutation := false }

/-- Message `StoreUser` (protocol.py lines 150-162): request fields
`encrypted_data`, `encryption_payload`; response field `data_hash`. -/
structure StoreUser where
  encrypted_data : String
  encryption_payload : String
  data_hash : Option String := none

/-- The `required_hash_fields` pydantic field declared on `StoreUser`. -/
def StoreUser.required_hash_fields : PydanticFieldDecl :=
  { value := ["encrypted_data", "encryption_payload"]
    title := "Required Hash Fields"
    descr := "A list of required fields for the hash."
    allow_mutation := false }

/-- Declared model fields of `StoreUser` in source order. -/
def StoreUser.fields : List (String × Bool) :=
  [("encrypted_data", true), ("encryption_payload", true), ("data_hash", false),
   ("required_hash_fields", false)]

/-- Python `Union[List[Dict[str, str]], str]` values held by
`Challenge.merkle_proof`. -/
inductive MerkleProofVal where
  | proofList (l : List (List (String × String)))
  | raw (s : String)

/-- Message `Challenge` (protocol.py lines 165-208): request fields
`challenge_hash`, `challenge_index`, `chunk_size`, `g`, `h`, `curve`, `seed`;
response fields `commitment_hash`, `commitment_proof`, `commitment`,
`data_chunk`, `randomness`, `merkle_proof`, `merkle_root`, all
`Optional[...] = None`. -/
structure Challenge where
  challenge_hash : String
  challenge_index : Int
  chunk_size : Int
  g : String
  h : String
  curve : String
  seed : SeedU
  commitment_hash : Option String := none
  commitment_proof : Option String := none
  commitment : Option String := none
  data_chunk : Option (List Nat) := none
  randomness : Option Int := none
  merkle_proof : Option MerkleProofVal := none
  merkle_root : Option String := none

/-- The `required_hash_fields` pydantic field declared on `Challenge`. -/
def Challenge.required_hash_fields : PydanticFieldDecl :=
  { value := ["commitment_hash", "commitment_proof", "commitment", "data_chunk",
              "randomness", "merkle_proof", "merkle_root"]
    title := "Required Hash Fields"
    descr := "A list of required fields for the hash."
    allow_mutation := false }

/-- Declared model fields of `Challenge` in source order. -/
def Challenge.fields : List (String × Bool) :=
  [("challenge_hash", true), ("challenge_index", true), ("chunk_size", true),
   ("g", true), ("h", true), ("curve", true), ("seed", true),
   ("commitment_hash", false), ("commitment_proof", false), ("commitment", false),
   ("data_chunk", false), ("randomness", false), ("merkle_proof", false),
   ("merkle_root", false), ("required_hash_fields", false)]

/-- Constructing a `Challenge` request supplies exactly the query and setup
parameters; the response fields take their declared `None` defaults. -/
def Challenge.mkRequest (challenge_hash : String) (challenge_index chunk_size : Int)
    (g h curve : String) (seed : SeedU) : Challenge :=
  { challenge_hash := challenge_hash, challenge_index := challenge_index,
    chunk_size := chunk_size, g := g, h := h, curve := curve, seed := seed }

/-- Message `Retrieve` (protocol.py lines 211-226): request fields `data_hash`,
`seed`; response fields `data`, `commitment_hash`, `commitment_proof`, all
`Optional[str] = None`. -/
structure Retrieve where
  data_hash : String
  seed : String
  data : Option String := none
  commitment_hash : Option String := none
  commitment_proof : Option String := none

/-- The `required_hash_fields` pydantic field declared on `Retrieve`,
transcribed verbatim from the source, including the misspelled entry
"commtiment_proof" at protocol.py line 222. -/
def Retrieve.required_hash_fields : PydanticFieldDecl :=
  { value := ["data", "data_hash", "seed", "commtiment_proof", "commitment_hash"]
    title := "Required Hash Fields"
    descr := "A list of required fields for the hash."
    allow_mutation := false }

/-- Declared model fields of `Retrieve` in source order. -/
def Retrieve.fields : List (String × Bool) :=
  [("data_hash", true), ("seed", true), ("data", false),
   ("commitment_hash", false), ("commitment_proof", false),
   ("required_hash_fields", false)]

/-- Declared model field names of `Retrieve`. -/
def Retrieve.fieldNames : List String := Retrieve.fields.map (fun f => f.1)

/-- Message `RetrieveUser` (protocol.py lines 229-242): request field
`data_hash`; response fields `encrypted_data`, `encryption_payload`. -/
structure RetrieveUser where
  data_hash : String
  encrypted_data : Option String := none
  encryption_payload : Option String := none

/-- The `required_hash_fields` pydantic field declared on `RetrieveUser`. -/
def RetrieveUser.required_hash_fields : PydanticFieldDecl :=
  { value := ["data_hash"]
    title := "Required Hash Fields"
    descr := "A list of required fields for the hash."
    allow_mutation := false }

/-- Declared model fields of `RetrieveUser` in source order. -/
def RetrieveUser.fields : List (String × Bool) :=
  [("data_hash", true), ("encrypted_data", false), ("encryption_payload", false),
   ("required_hash_fields", false)]

/-! Embedding of `src/neurons/api.py`.

The neuron's persistent collaborators are made explicit state: the redis
database (`database`) is a string key-value map, and the broadband placement
layer (`broadband`) maps a ContentId to the stored ciphertext and the
user-facing encryption payload.  The encryption gateway functions
`encrypt_data` / `decrypt_data_with_private_key` (imported from
`storage.validator.encryption`, whose source is not available) are passed as
explicit function parameters; fallible calls return `Except`, mirroring
Python exception propagation. -/

/-- String key-value map (the redis database), newest binding first. -/
abbrev KV := List (String × String)

/-- Modelled from the spec: the persistent key-value store.  `kvSet` models
`await self.database.set(key, value)`. -/
def kvSet (db : KV) (key v : String) : KV := (key, v) :: db

/-- Modelled from the spec: the persistent key-value store.  `kvGet` looks a
key up, newest binding first. -/
def kvGet : KV → String → Option String
  | [], _ => none
  | (k, v) :: rest, key => if key = k then some v else kvGet rest key

/-- Placement layer state: ContentId to (stored ciphertext bytes, user-facing
encryption payload), newest binding first. -/
abbrev Broadband := List (String × (List Nat × String))

/-- Lookup in the placement layer state. -/
def bbGet : Broadband → String → Option (List Nat × String)
  | [], _ => none
  | (k, v) :: rest, key => if key = k then some v else bbGet rest key

/-- Modelled from the spec: `store_broadband` (`storage.validator.store`, not
under src/) — the Placement Coordinator's `store`, which distributes the
ciphertext to providers and records placement under `data_hash`; under the
hypothesis that the collaborators return exactly what was stored, it is a
key-value insertion `data_hash` to (ciphertext, user payload). -/
def store_broadband (bb : Broadband) (data_hash : String)
    (encrypted_data : List Nat) (encryption_payload : String) : Broadband :=
  (data_hash, (encrypted_data, encryption_payload)) :: bb

/-- Modelled from the spec: `retrieve_broadband` (`storage.validator.retrieve`,
not under src/) — the Placement Coordinator's `retrieve(ContentId)`, which
returns the stored ciphertext and user payload for the ContentId, failing with
`DataUnavailable` when no provider holds it. -/
def retrieve_broadband (bb : Broadband) (data_hash : String) :
    Except String (List Nat × String) :=
  match bbGet bb data_hash with
  | some v => Except.ok v
  | none => Except.error "DataUnavailable"

/-- Modelled from the spec: `retrieve_encryption_payload`
(`storage.validator.database`, not under src/) — reads the serialized
encryption payload persisted under `payload:<scope>:<ContentId>`; the caller
passes the `<scope>:<ContentId>` part of the key. -/
def retrieve_encryption_payload (db : KV) (key : String) : Except String String :=
  match kvGet db ("payload:" ++ key) with
  | some v => Except.ok v
  | none => Except.error "DataUnavailable"

/-- Modelled from the spec: `generate_cid_string` (`storage.validator.cid`,
not under src/) — Content Addressing `identify(bytes) -> ContentId`, a
deterministic hex-encoded hash digest of the exact byte sequence.  Embedded
as a concrete deterministic digest of the byte list. -/
def generate_cid_string (bs : List Nat) : String :=
  String.mk (Nat.toDigits 16 (bs.foldl (fun acc b => (acc * 131 + b + 1) % (2 ^ 64)) 5381))

/-- Persistent collaborator state of the API neuron. -/
structure ApiState where
  database : KV
  broadband : Broadband

/-- `neuron.store_user_data` (api.py lines 211-258): base64-decode the
request's `encrypted_data`, re-encrypt it under the validator's custodial key
(`encrypt` models `encrypt_data(·, self.encryption_wallet)`; its serialized
payload string models the `json.dumps` of the payload dict), derive the
ContentId of the decoded bytes, persist the validator payload under
`payload:validator:<ContentId>`, hand the validator ciphertext and the user's
`encryption_payload` to `store_broadband` under the ContentId, and return the
synapse with `data_hash` set to the ContentId. -/
def store_user_data (encrypt : List Nat → List Nat × String)
    (st : ApiState) (synapse : StoreUser) : ApiState × StoreUser :=
  let decoded_data := b64decode synapse.encrypted_data
  let validator_encrypted_data := (encrypt decoded_data).1
  let validator_encryption_payload := (encrypt decoded_data).2
  let content_id := generate_cid_string decoded_data
  let st1 : ApiState :=
    { st with database := kvSet st.database ("payload:validator:" ++ content_id)
                                validator_encryption_payload }
  let st2 : ApiState :=
    { st1 with broadband := store_broadband st1.broadband content_id
                              validator_encrypted_data synapse.encryption_payload }
  (st2, { synapse with data_hash := some content_id })

/-- `neuron.retrieve_user_data` (api.py lines 289-336): fetch the validator
ciphertext and the user payload from the broadband layer for the requested
`data_hash`, read the validator payload persisted under
`payload:validator:<data_hash>`, decrypt the validator ciphertext with the
validator's private key (`decrypt` models
`decrypt_data_with_private_key(data, payload, key)`), and return the synapse
with `encrypted_data` set to the base64 encoding of the decrypted bytes and
`encryption_payload` set to the user payload.  The function performs no
writes, so the state component is returned unchanged; a failing step
propagates as `Except.error`, mirroring a raised exception, in which case no
response fields are ever assigned. -/
def retrieve_user_data (decrypt : List Nat → String → Except String (List Nat))
    (st : ApiState) (synapse : RetrieveUser) :
    ApiState × Except String RetrieveUser :=
  (st,
    match retrieve_broadband st.broadband synapse.data_hash with
    | Except.error e => Except.error e
    | Except.ok rb =>
      match retrieve_encryption_payload st.database ("validator:" ++ synapse.data_hash) with
      | Except.error e => Except.error e
      | Except.ok validator_encryption_payload =>
        match decrypt rb.1 validator_encryption_payload with
        | Except.error e => Except.error e
        | Except.ok decrypted_data =>
          Except.ok { synapse with
            encrypted_data := some (b64encode decrypted_data),
            encryption_payload := some rb.2 })

/-- Access-control configuration consulted by the blacklist hooks
(`self.config.api.open_access`, `self.config.api.whitelisted_hotkeys`). -/
structure ApiConfig where
  open_access : Bool
  whitelisted_hotkeys : List String

/-- `neuron.store_blacklist` (api.py lines 260-275): admit everyone under
open access, admit whitelisted hotkeys, reject the rest.  `true` means
blacklisted. -/
def store_blacklist (cfg : ApiConfig) (hotkey : String) : Bool × String :=
  if cfg.open_access then
    (false, "Open access: WARNING all whitelisted")
  else if hotkey ∈ cfg.whitelisted_hotkeys then
    (false, "Hotkey " ++ hotkey ++ " whitelisted.")
  else
    (true, "Hotkey " ++ hotkey ++ " not whitelisted or in top n% stake.")

/-- `neuron.retrieve_blacklist` (api.py lines 338-353): identical admission
rule to `store_blacklist`. -/
def retrieve_blacklist (cfg : ApiConfig) (hotkey : String) : Bool × String :=
  if cfg.open_access then
    (false, "Open access: WARNING all whitelisted")
  else if hotkey ∈ cfg.whitelisted_hotkeys then
    (false, "Hotkey " ++ hotkey ++ " whitelisted.")
  else
    (true, "Hotkey " ++ hotkey ++ " not whitelisted or in top n% stake.")

/-! Claim theorems. -/

/-- The store path persists the validator payload under
`payload:validator:<cid>` while the retrieve path reads
`payload:` ++ (`validator:` ++ <cid>); the two keys coincide. -/
theorem payload_validator_key (cid : String) :
    "payload:" ++ ("validator:" ++ cid) = "payload:validator:" ++ cid := by
  rw [← String.append_assoc]
  rfl

/-- C1: store-then-retrieve round trip.  For every `StoreUser` request
carrying base64 ciphertext `E` and user payload `P`, if `store_user_data`
returns `data_hash` `d`, then — under the hypotheses that the broadband
collaborators return exactly what was stored (built into the placement-map
model) and that the gateway's `decrypt` inverts its `encrypt` (`hdec`) — a
`retrieve_user_data` for `d` succeeds, leaves state untouched, and returns
`encrypted_data` whose base64 decoding equals the base64 decoding of `E`
and `encryption_payload` equal to `P`. -/
theorem store_then_retrieve_round_trip
    (encrypt : List Nat → List Nat × String)
    (decrypt : List Nat → String → Except String (List Nat))
    (st : ApiState) (syn : StoreUser) (rsyn : RetrieveUser)
    (hdec : ∀ bs, decrypt (encrypt bs).1 (encrypt bs).2 = Except.ok bs)
    (hhash : some rsyn.data_hash = (store_user_data encrypt st syn).2.data_hash) :
    ∃ out ed,
      retrieve_user_data decrypt (store_user_data encrypt st syn).1 rsyn
        = ((store_user_data encrypt st syn).1, Except.ok out) ∧
      out.encrypted_data = some ed ∧
      b64decode ed = b64decode syn.encrypted_data ∧
      out.encryption_payload = some syn.encryption_payload := by
  have hds : rsyn.data_hash = generate_cid_string (b64decode syn.encrypted_data) := by
    simpa [store_user_data] using hhash
  have hkey := payload_validator_key (generate_cid_string (b64decode syn.encrypted_data))
  refine ⟨{ rsyn with
      encrypted_data := some (b64encode (b64decode syn.encrypted_data)),
      encryption_payload := some syn.encryption_payload },
    b64encode (b64decode syn.encrypted_data), ?_, rfl,
    b64decode_b64encode _ (b64decode_lt _), rfl⟩
  simp [retrieve_user_data, store_user_data, store_broadband, retrieve_broadband,
    bbGet, retrieve_encryption_payload, kvSet, kvGet, hds, hkey, hdec]

/-- C1 witness: a concrete store-then-retrieve round trip (`"TWFu"` is base64
for the bytes `[77, 97, 110]`). -/
theorem store_then_retrieve_round_trip_witness :
    ∃ out ed,
      retrieve_user_data (fun bs _p => Except.ok bs)
        (store_user_data (fun bs => (bs, "vp")) ⟨[], []⟩
          ⟨"TWFu", "userpayload", none⟩).1
        ⟨generate_cid_string (b64decode "TWFu"), none, none⟩
        = ((store_user_data (fun bs => (bs, "vp")) ⟨[], []⟩
            ⟨"TWFu", "userpayload", none⟩).1, Except.ok out) ∧
      out.encrypted_data = some ed ∧
      b64decode ed = b64decode "TWFu" ∧
      out.encryption_payload = some "userpayload" :=
  store_then_retrieve_round_trip (fun bs => (bs, "vp")) (fun bs _p => Except.ok bs)
    ⟨[], []⟩ ⟨"TWFu", "userpayload", none⟩
    ⟨generate_cid_string (b64decode "TWFu"), none, none⟩
    (fun _bs => rfl) rfl

/-- C2: ContentId derivation and determinism.  The `data_hash` returned by
`store_user_data` is `generate_cid_string` of the base64-decoded request
bytes — a function of those bytes alone, independent of the network
re-encryption function and of prior state, so two requests with
byte-identical `encrypted_data` receive the identical `data_hash` — and that
same id is the key under which the placement layer and the payload database
are written. -/
theorem content_id_derivation
    (e1 e2 : List Nat → List Nat × String)
    (st1 st2 : ApiState) (s1 s2 : StoreUser)
    (h : s1.encrypted_data = s2.encrypted_data) :
    (store_user_data e1 st1 s1).2.data_hash
      = some (generate_cid_string (b64decode s1.encrypted_data)) ∧
    (store_user_data e1 st1 s1).2.data_hash = (store_user_data e2 st2 s2).2.data_hash ∧
    bbGet (store_user_data e1 st1 s1).1.broadband
        (generate_cid_string (b64decode s1.encrypted_data))
      = some ((e1 (b64decode s1.encrypted_data)).1, s1.encryption_payload) ∧
    kvGet (store_user_data e1 st1 s1).1.database
        ("payload:validator:" ++ generate_cid_string (b64decode s1.encrypted_data))
      = some (e1 (b64decode s1.encrypted_data)).2 := by
  refine ⟨rfl, ?_, ?_, ?_⟩
  · simp [store_user_data, h]
  · simp [store_user_data, store_broadband, bbGet]
  · simp [store_user_data, kvSet, kvGet]

/-- C2 witness: two stores of the same base64 bytes under different
encryption functions, payloads and prior states yield the same `data_hash`. -/
theorem content_id_derivation_witness :
    (store_user_data (fun bs => (bs, "a")) ⟨[], []⟩ ⟨"TWFu", "p1", none⟩).2.data_hash
      = some (generate_cid_string (b64decode "TWFu")) ∧
    (store_user_data (fun bs => (bs, "a")) ⟨[], []⟩ ⟨"TWFu", "p1", none⟩).2.data_hash
      = (store_user_data (fun _bs => ([0], "b")) ⟨[("k", "v")], []⟩
          ⟨"TWFu", "p2", none⟩).2.data_hash ∧
    bbGet (store_user_data (fun bs => (bs, "a")) ⟨[], []⟩
        ⟨"TWFu", "p1", none⟩).1.broadband
        (generate_cid_string (b64decode "TWFu"))
      = some (b64decode "TWFu", "p1") ∧
    kvGet (store_user_data (fun bs => (bs, "a")) ⟨[], []⟩
        ⟨"TWFu", "p1", none⟩).1.database
        ("payload:validator:" ++ generate_cid_string (b64decode "TWFu"))
      = some "a" :=
  content_id_derivation (fun bs => (bs, "a")) (fun _bs => ([0], "b"))
    ⟨[], []⟩ ⟨[("k", "v")], []⟩ ⟨"TWFu", "p1", none⟩ ⟨"TWFu", "p2", none⟩ rfl

/-- C3: decryption-failure atomicity.  When the broadband fetch and the
payload lookup succeed but decryption of the validator-held ciphertext
fails, `retrieve_user_data` propagates the error: the persisted state is
returned unchanged and no `RetrieveUser` response is produced, so the
response fields `encrypted_data` and `encryption_payload` (assigned only
after a successful decryption) are never set. -/
theorem retrieve_decryption_failure_atomic
    (decrypt : List Nat → String → Except String (List Nat))
    (st : ApiState) (syn : RetrieveUser)
    (ved : List Nat) (uep vp msg : String)
    (h1 : bbGet st.broadband syn.data_hash = some (ved, uep))
    (h2 : kvGet st.database ("payload:" ++ ("validator:" ++ syn.data_hash)) = some vp)
    (h3 : decrypt ved vp = Except.error msg) :
    retrieve_user_data decrypt st syn = (st, Except.error msg) := by
  simp [retrieve_user_data, retrieve_broadband, retrieve_encryption_payload, h1, h2, h3]

/-- C3 witness: a concrete retrieval whose decryption step fails. -/
theorem retrieve_decryption_failure_atomic_witness :
    retrieve_user_data (fun _d _p => Except.error "DecryptionError")
      ⟨[("payload:validator:d1", "vp")], [("d1", ([1, 2], "up"))]⟩ ⟨"d1", none, none⟩
      = (⟨[("payload:validator:d1", "vp")], [("d1", ([1, 2], "up"))]⟩,
         Except.error "DecryptionError") :=
  retrieve_decryption_failure_atomic (fun _d _p => Except.error "DecryptionError")
    ⟨[("payload:validator:d1", "vp")], [("d1", ([1, 2], "up"))]⟩ ⟨"d1", none, none⟩
    [1, 2] "up" "vp" "DecryptionError" rfl rfl rfl

/-- C4: the `Retrieve` message's declared required-for-hashing list contains
the misspelled name "commtiment_proof" (protocol.py line 222), which is not
a field of the message, while the actual field `commitment_proof` is absent
from the list — so the designated set is not the claimed
set and the signature computed over it does not cover the returned
commitment proof. -/
theorem retrieve_required_hash_fields_typo :
    Retrieve.required_hash_fields.value
      = ["data", "data_hash", "seed", "commtiment_proof", "commitment_hash"] ∧
    "commtiment_proof" ∈ Retrieve.required_hash_fields.value ∧
    "commtiment_proof" ∉ Retrieve.fieldNames ∧
    "commitment_proof" ∈ Retrieve.fieldNames ∧
    "commitment_proof" ∉ Retrieve.required_hash_fields.value := by
  decide

/-- C5: persisted-key scheme consistency.  For the ContentId `d` returned by
`store_user_data`, the serialized validator-custodial payload sits in the
database under `payload:validator:<d>`, and the retrieve path's
`retrieve_encryption_payload` call for `validator:<d>` reads it back from
exactly that key. -/
theorem persisted_key_scheme
    (encrypt : List Nat → List Nat × String)
    (st : ApiState) (syn : StoreUser) (d : String)
    (hd : (store_user_data encrypt st syn).2.data_hash = some d) :
    kvGet (store_user_data encrypt st syn).1.database ("payload:validator:" ++ d)
      = some (encrypt (b64decode syn.encrypted_data)).2 ∧
    retrieve_encryption_payload (store_user_data encrypt st syn).1.database
        ("validator:" ++ d)
      = Except.ok (encrypt (b64decode syn.encrypted_data)).2 := by
  have hd2 : d = generate_cid_string (b64decode syn.encrypted_data) := by
    have := hd.symm
    simpa [store_user_data] using this
  subst hd2
  constructor
  · simp [store_user_data, kvSet, kvGet]
  · simp [retrieve_encryption_payload, store_user_data, kvSet, kvGet,
      payload_validator_key]

/-- C5 witness: a concrete store followed by the payload read-back. -/
theorem persisted_key_scheme_witness :
    kvGet (store_user_data (fun bs => (bs, "vp")) ⟨[], []⟩
        ⟨"TWFu", "up", none⟩).1.database
        ("payload:validator:" ++ generate_cid_string (b64decode "TWFu"))
      = some "vp" ∧
    retrieve_encryption_payload (store_user_data (fun bs => (bs, "vp")) ⟨[], []⟩
        ⟨"TWFu", "up", none⟩).1.database
        ("validator:" ++ generate_cid_string (b64decode "TWFu"))
      = Except.ok "vp" :=
  persisted_key_scheme (fun bs => (bs, "vp")) ⟨[], []⟩ ⟨"TWFu", "up", none⟩
    (generate_cid_string (b64decode "TWFu")) rfl

/-- C6: for every protocol message type, the `required_hash_fields`
declaration fixes one definite list of names at class definition and carries
`allow_mutation = False`, so the field set designated for signing is the
same, in the same order, for every instance of that type. -/
theorem required_hash_fields_fixed :
    Store.required_hash_fields.value
      = ["curve", "g", "h", "seed", "randomness", "commitment", "signature",
         "commitment_hash"] ∧
    Store.required_hash_fields.allow_mutation = false ∧
    StreamStore.required_hash_fields.value = Store.required_hash_fields.value ∧
    StreamStore.required_hash_fields.allow_mutation = false ∧
    StoreUser.required_hash_fields.value = ["encrypted_data", "encryption_payload"] ∧
    StoreUser.required_hash_fields.allow_mutation = false ∧
    Challenge.required_hash_fields.value
      = ["commitment_hash", "commitment_proof", "commitment", "data_chunk",
         "randomness", "merkle_proof", "merkle_root"] ∧
    Challenge.required_hash_fields.allow_mutation = false ∧
    Retrieve.required_hash_fields.value
      = ["data", "data_hash", "seed", "commtiment_proof", "commitment_hash"] ∧
    Retrieve.required_hash_fields.allow_mutation = false ∧
    RetrieveUser.required_hash_fields.value = ["data_hash"] ∧
    RetrieveUser.required_hash_fields.allow_mutation = false :=
  ⟨rfl, rfl, rfl, rfl, rfl, rfl, rfl, rfl, rfl, rfl, rfl, rfl⟩

/-- C7: Store message contract.  The required (default-free) declared fields
of `Store` are exactly `encrypted_data`, `curve`, `g`, `h`, `seed`; the
response-only fields `randomness`, `commitment`, `signature`,
`commitment_hash` are declared optional and are `none` in every freshly
constructed request. -/
theorem store_message_contract :
    (Store.fields.filter (fun f => f.2)).map (fun f => f.1)
      = ["encrypted_data", "curve", "g", "h", "seed"] ∧
    (("randomness", false) ∈ Store.fields ∧ ("commitment", false) ∈ Store.fields ∧
     ("signature", false) ∈ Store.fields ∧ ("commitment_hash", false) ∈ Store.fields) ∧
    ∀ ed cu gp hp sd,
      (Store.mkRequest ed cu gp hp sd).randomness = none ∧
      (Store.mkRequest ed cu gp hp sd).commitment = none ∧
      (Store.mkRequest ed cu gp hp sd).signature = none ∧
      (Store.mkRequest ed cu gp hp sd).commitment_hash = none := by
  refine ⟨by decide, by decide, ?_⟩
  intro ed cu gp hp sd
  exact ⟨rfl, rfl, rfl, rfl⟩

/-- C8: StoreUser response frame.  `store_user_data` returns the request
synapse with `data_hash` set to the computed ContentId and with
`encrypted_data` and `encryption_payload` unchanged. -/
theorem store_user_response_frame
    (encrypt : List Nat → List Nat × String) (st : ApiState) (syn : StoreUser) :
    (store_user_data encrypt st syn).2.data_hash
      = some (generate_cid_string (b64decode syn.encrypted_data)) ∧
    (store_user_data encrypt st syn).2.encrypted_data = syn.encrypted_data ∧
    (store_user_data encrypt st syn).2.encryption_payload = syn.encryption_payload :=
  ⟨rfl, rfl, rfl⟩

/-- C9: both blacklist hooks admit a request (return `false`) precisely when
the `open_access` flag is set or the caller's hotkey is whitelisted; no
stake-based admission occurs, its only trace being the wording of the
rejection message. -/
theorem blacklist_admission_rule (cfg : ApiConfig) (hk : String) :
    ((store_blacklist cfg hk).1 = false ↔
      cfg.open_access = true ∨ hk ∈ cfg.whitelisted_hotkeys) ∧
    ((retrieve_blacklist cfg hk).1 = false ↔
      cfg.open_access = true ∨ hk ∈ cfg.whitelisted_hotkeys) := by
  constructor
  · simp only [store_blacklist]
    split_ifs with h1 h2 <;> simp_all
  · simp only [retrieve_blacklist]
    split_ifs with h1 h2 <;> simp_all

/-- C10: the `Challenge` message's required-for-hashing list is exactly the
seven response fields, each declared optional (default `none` on a freshly
constructed request), and contains none of the request parameters
`challenge_hash`, `challenge_index`, `chunk_size`, `g`, `h`, `curve`,
`seed`. -/
theorem challenge_signed_fields_response_only :
    Challenge.required_hash_fields.value
      = ["commitment_hash", "commitment_proof", "commitment", "data_chunk",
         "randomness", "merkle_proof", "merkle_root"] ∧
    (["challenge_hash", "challenge_index", "chunk_size", "g", "h", "curve",
      "seed"].all
        (fun f => !(Challenge.required_hash_fields.value.contains f))) = true ∧
    (Challenge.required_hash_fields.value.all
        (fun f => Challenge.fields.contains (f, false))) = true ∧
    ∀ ch ci cs gp hp cu sd,
      (Challenge.mkRequest ch ci cs gp hp cu sd).commitment_hash = none ∧
      (Challenge.mkRequest ch ci cs gp hp cu sd).commitment_proof = none ∧
      (Challenge.mkRequest ch ci cs gp hp cu sd).commitment = none ∧
      (Challenge.mkRequest ch ci cs gp hp cu sd).data_chunk = none ∧
      (Challenge.mkRequest ch ci cs gp hp cu sd).randomness = none ∧
      (Challenge.mkRequest ch ci cs gp hp cu sd).merkle_proof = none ∧
      (Challenge.mkRequest ch ci cs gp hp cu sd).merkle_root = none := by
  refine ⟨rfl, by decide, by decide, ?_⟩
  intro ch ci cs gp hp cu sd
  exact ⟨rfl, rfl, rfl, rfl, rfl, rfl, rfl⟩
